import Mathlib

/-!
# Verification of the banking-ai-notebooks financial engine and utilities

The repository's tests (`tests/test_financial_engine.py`) exercise a
`FinancialEngine` whose implementation file (`src/financial_engine.py`) is not
present in the source tree; its behaviour is modelled here from the
specification's closed-form formulas, over exact rational arithmetic (`ℚ`).
The environment-detection utilities (`src/utils.py`) are present and embedded
directly from the source.
-/

namespace FinancialEngine

/-- Modelled from the spec: `FinancialEngine.payment` (file
`src/financial_engine.py` is missing from the source tree).
"If `rate == 0`: result = `principal / periods`"; else
`payment = principal * rate / (1 - (1 + rate) ** -periods)`. -/
def payment (principal rate : ℚ) (periods : ℕ) : ℚ :=
  if rate = 0 then principal / periods
  else principal * rate / (1 - ((1 + rate) ^ periods)⁻¹)

/-- Modelled from the spec: `FinancialEngine.max_principal` (file
`src/financial_engine.py` is missing). "If `rate == 0`: result =
`payment * periods`"; else `principal = payment * (1 - (1 + rate) ** -periods) / rate`. -/
def max_principal (pay rate : ℚ) (periods : ℕ) : ℚ :=
  if rate = 0 then pay * periods
  else pay * (1 - ((1 + rate) ^ periods)⁻¹) / rate

/-- Modelled from the spec: `FinancialEngine.remaining_balance` (file
`src/financial_engine.py` is missing). "If `rate == 0`:
`principal - payment(principal, rate, periods) * period`"; else
`principal * (1+rate)**period - payment * (((1+rate)**period - 1) / rate)`. -/
def remaining_balance (principal rate : ℚ) (period periods : ℕ) : ℚ :=
  if rate = 0 then principal - payment principal rate periods * period
  else principal * (1 + rate) ^ period -
    payment principal rate periods * (((1 + rate) ^ period - 1) / rate)

/-- Modelled from the spec: `FinancialEngine.interest_payment` (file
`src/financial_engine.py` is missing). "Defined as
`remaining_balance(principal, rate, period - 1, periods) * rate`." -/
def interest_payment (principal rate : ℚ) (period periods : ℕ) : ℚ :=
  remaining_balance principal rate (period - 1) periods * rate

/-- Modelled from the spec: `FinancialEngine.principal_payment` (file
`src/financial_engine.py` is missing). "Defined as
`payment(principal, rate, periods) - interest_payment(principal, rate, period, periods)`." -/
def principal_payment (principal rate : ℚ) (period periods : ℕ) : ℚ :=
  payment principal rate periods - interest_payment principal rate period periods

/-- Modelled from the spec: a row of the amortization schedule,
`{month, payment, principal, interest, balance}`. -/
structure AmortizationRow where
  month : ℕ
  payment : ℚ
  principal : ℚ
  interest : ℚ
  balance : ℚ
deriving Repr, DecidableEq, Inhabited

/-- Modelled from the spec: row `i` (1-based) of the schedule. "`payment` is
the constant periodic payment; `principal`/`interest` are that period's
decomposition; `balance` is `remaining_balance` after that period", and
"the implementation must force the last row's balance to the exact zero
value". -/
def amortRow (principal rate : ℚ) (period periods : ℕ) : AmortizationRow :=
  { month := period
    payment := payment principal rate periods
    principal := principal_payment principal rate period periods
    interest := interest_payment principal rate period periods
    balance := if period = periods then 0
               else remaining_balance principal rate period periods }

/-- Modelled from the spec: `FinancialEngine.amortization_table` (file
`src/financial_engine.py` is missing). "Builds the full period-by-period
schedule by evaluating `payment`, `principal_payment`, `interest_payment`,
and `remaining_balance` at every period `1..periods`." -/
def amortization_table (principal rate : ℚ) (periods : ℕ) : List AmortizationRow :=
  (List.range periods).map fun i => amortRow principal rate (i + 1) periods

/-- Modelled from the spec: the error taxonomy of §7. `InvalidTerm`:
`periods ≤ 0`; `InvalidRate`/`InvalidPrincipal`: negative `rate` or
negative `principal`. -/
inductive FinError where
  | InvalidTerm
  | InvalidRate
  | InvalidPrincipal
deriving Repr, DecidableEq

/-- Modelled from the spec: the fatal input-validation step of §7, surfaced
immediately, before any computation is attempted. -/
def validate (principal rate : ℚ) (periods : ℤ) : Except FinError Unit :=
  if periods ≤ 0 then .error .InvalidTerm
  else if rate < 0 then .error .InvalidRate
  else if principal < 0 then .error .InvalidPrincipal
  else .ok ()

/-- Modelled from the spec: `payment` with §7 input validation. -/
def payment_checked (principal rate : ℚ) (periods : ℤ) : Except FinError ℚ :=
  (validate principal rate periods).map fun _ => payment principal rate periods.toNat

/-- Modelled from the spec: `max_principal` with §7 input validation. -/
def max_principal_checked (pay rate : ℚ) (periods : ℤ) : Except FinError ℚ :=
  (validate pay rate periods).map fun _ => max_principal pay rate periods.toNat

/-- Modelled from the spec: `interest_payment` with §7 input validation. -/
def interest_payment_checked (principal rate : ℚ) (period : ℕ) (periods : ℤ) :
    Except FinError ℚ :=
  (validate principal rate periods).map fun _ =>
    interest_payment principal rate period periods.toNat

/-- Modelled from the spec: `principal_payment` with §7 input validation. -/
def principal_payment_checked (principal rate : ℚ) (period : ℕ) (periods : ℤ) :
    Except FinError ℚ :=
  (validate principal rate periods).map fun _ =>
    principal_payment principal rate period periods.toNat

/-- Modelled from the spec: `remaining_balance` with §7 input validation. -/
def remaining_balance_checked (principal rate : ℚ) (period : ℕ) (periods : ℤ) :
    Except FinError ℚ :=
  (validate principal rate periods).map fun _ =>
    remaining_balance principal rate period periods.toNat

/-- Modelled from the spec: `amortization_table` with §7 input validation. -/
def amortization_table_checked (principal rate : ℚ) (periods : ℤ) :
    Except FinError (List AmortizationRow) :=
  (validate principal rate periods).map fun _ =>
    amortization_table principal rate periods.toNat

end FinancialEngine

namespace Utils

/-- The environment indicators consulted by `src/utils.py`: presence of the
`KAGGLE_KERNEL_RUN_TYPE` environment variable, presence of the `COLAB_GPU`
environment variable, and presence of the `google.colab` module in
`sys.modules`. -/
structure EnvState where
  kaggle_kernel_run_type : Bool
  colab_gpu : Bool
  google_colab_module : Bool
deriving Repr, DecidableEq

/-- Embeds `utils.is_kaggle`: `"KAGGLE_KERNEL_RUN_TYPE" in os.environ`. -/
def is_kaggle (e : EnvState) : Bool :=
  e.kaggle_kernel_run_type

/-- Embeds `utils.is_colab`:
`"COLAB_GPU" in os.environ or "google.colab" in sys.modules`. -/
def is_colab (e : EnvState) : Bool :=
  e.colab_gpu || e.google_colab_module

/-- Embeds `utils.get_environment`: `"kaggle"` if `is_kaggle()`, else
`"colab"` if `is_colab()`, else `"local"`. -/
def get_environment (e : EnvState) : String :=
  if is_kaggle e then "kaggle"
  else if is_colab e then "colab"
  else "local"

end Utils

namespace FinancialEngine

/-- For a positive rate and at least one period, the compounding factor
exceeds `1`. -/
lemma one_lt_compound {r : ℚ} (hr : 0 < r) {n : ℕ} (hn : 1 ≤ n) :
    1 < (1 + r) ^ n :=
  one_lt_pow₀ (by linarith) (by omega)

/-- The annuity denominator `1 - (1+r)^(-n)` is positive when `r > 0`,
`n ≥ 1`. -/
lemma annuity_denom_pos {r : ℚ} (hr : 0 < r) {n : ℕ} (hn : 1 ≤ n) :
    0 < 1 - ((1 + r) ^ n)⁻¹ := by
  have h := one_lt_compound hr hn
  have : ((1 + r) ^ n)⁻¹ < 1 := inv_lt_one_of_one_lt₀ h
  linarith

/-- The annuity denominator `1 - (1+r)^(-n)` is below `1` when `r > 0`,
`n ≥ 1`. -/
lemma annuity_denom_lt_one {r : ℚ} (hr : 0 < r) {n : ℕ} (hn : 1 ≤ n) :
    1 - ((1 + r) ^ n)⁻¹ < 1 := by
  have h := one_lt_compound hr hn
  have : 0 < ((1 + r) ^ n)⁻¹ := by positivity
  linarith

/-- Unfolding of `payment` on the positive-rate branch. -/
lemma payment_of_rate_ne_zero (P : ℚ) {r : ℚ} (hr : r ≠ 0) (n : ℕ) :
    payment P r n = P * r / (1 - ((1 + r) ^ n)⁻¹) := by
  simp [payment, hr]

/-- Unfolding of `payment` on the zero-rate branch. -/
lemma payment_of_rate_zero (P : ℚ) (n : ℕ) :
    payment P 0 n = P / n := by
  simp [payment]

/-- The payment is strictly positive for positive principal, nonnegative
rate and at least one period. -/
lemma payment_pos {P r : ℚ} {n : ℕ} (hP : 0 < P) (hr : 0 ≤ r)
    (hn : 1 ≤ n) : 0 < payment P r n := by
  rcases eq_or_lt_of_le hr with h0 | h0
  · rw [← h0, payment_of_rate_zero]
    have hn' : (0 : ℚ) < n := by exact_mod_cast hn
    positivity
  · rw [payment_of_rate_ne_zero P (ne_of_gt h0)]
    exact div_pos (by positivity) (annuity_denom_pos h0 hn)

/-- The payment strictly exceeds the first period's interest `P * r`. -/
lemma mul_rate_lt_payment {P r : ℚ} {n : ℕ} (hP : 0 < P) (hr : 0 < r)
    (hn : 1 ≤ n) : P * r < payment P r n := by
  rw [payment_of_rate_ne_zero P (ne_of_gt hr)]
  have hd := annuity_denom_pos hr hn
  have hd1 := annuity_denom_lt_one hr hn
  rw [lt_div_iff₀ hd]
  have hPr : 0 < P * r := by positivity
  nlinarith

/-- The balance at period `0` is the full principal. -/
lemma remaining_balance_zero (P r : ℚ) (n : ℕ) :
    remaining_balance P r 0 n = P := by
  by_cases hr : r = 0 <;> simp [remaining_balance, hr]

/-- The balance after the final period is exactly `0` for a nonnegative
rate and at least one period. -/
lemma remaining_balance_final {P r : ℚ} {n : ℕ} (hr : 0 ≤ r) (hn : 1 ≤ n) :
    remaining_balance P r n n = 0 := by
  have hn' : (n : ℚ) ≠ 0 := Nat.cast_ne_zero.mpr (by omega)
  rcases eq_or_lt_of_le hr with h0 | h0
  · rw [← h0]
    simp only [remaining_balance, if_pos rfl, payment_of_rate_zero]
    field_simp
  · have hrne : r ≠ 0 := ne_of_gt h0
    have hx : (1 + r) ^ n ≠ 0 := by positivity
    have hd : 1 - ((1 + r) ^ n)⁻¹ ≠ 0 := ne_of_gt (annuity_denom_pos h0 hn)
    have hx1 : (1 + r) ^ n - 1 ≠ 0 := by
      have := one_lt_compound h0 hn
      intro hcontra
      linarith
    simp only [remaining_balance, if_neg hrne, payment_of_rate_ne_zero P hrne]
    field_simp
    ring

/-- One-step recurrence of the closed-form balance:
`B(k+1) = B(k) * (1 + r) - payment`. -/
lemma remaining_balance_succ (P r : ℚ) (k n : ℕ) :
    remaining_balance P r (k + 1) n
      = remaining_balance P r k n * (1 + r) - payment P r n := by
  by_cases hr : r = 0
  · subst hr
    simp only [remaining_balance, if_pos rfl]
    push_cast
    ring
  · simp only [remaining_balance, if_neg hr]
    field_simp
    ring

/-- The principal portion of payment `k+1` is the fall in the balance from
period `k` to period `k+1`. -/
lemma principal_payment_eq_balance_sub (P r : ℚ) (k n : ℕ) :
    principal_payment P r (k + 1) n
      = remaining_balance P r k n - remaining_balance P r (k + 1) n := by
  have h := remaining_balance_succ P r k n
  simp only [principal_payment, interest_payment, Nat.add_sub_cancel]
  linarith [h]

/-- Successive closed-form balances fall by `(1+r)^k * (payment - P*r)`. -/
lemma remaining_balance_succ_sub {P : ℚ} {r : ℚ} (hr : r ≠ 0) (k n : ℕ) :
    remaining_balance P r (k + 1) n - remaining_balance P r k n
      = (1 + r) ^ k * (P * r - payment P r n) := by
  simp only [remaining_balance, if_neg hr]
  field_simp
  ring

/-- For a positive rate and principal, the closed-form balance is strictly
decreasing in the period index. -/
lemma remaining_balance_strictAnti {P r : ℚ} {n : ℕ} (hP : 0 < P)
    (hr : 0 < r) (hn : 1 ≤ n) :
    StrictAnti fun k => remaining_balance P r k n := by
  apply strictAnti_nat_of_succ_lt
  intro k
  have h := remaining_balance_succ_sub (P := P) (ne_of_gt hr) k n
  have hA := mul_rate_lt_payment hP hr hn
  have hpow : (0 : ℚ) < (1 + r) ^ k := by positivity
  nlinarith

/-- Telescoping sum over an initial segment. -/
lemma sum_map_range_sub (f : ℕ → ℚ) (n : ℕ) :
    (((List.range n).map fun i => f i - f (i + 1)).sum) = f 0 - f n := by
  induction n with
  | zero => simp
  | succ m ih =>
      rw [List.range_succ, List.map_append, List.sum_append, ih]
      simp

end FinancialEngine

/-- C1: the claim's concrete scenario fails on the spec's own formula: with a
periodic rate of `0.05`, `payment 50000 0.05 36` is about `3021.72`, more
than `0.01` away from the claimed `1498.88`, so the claimed tolerance bound
`|payment 50000 0.05 36 - 1498.88| < 0.01` is false. -/
theorem claim_C1_counterexample :
    1/100 < |FinancialEngine.payment 50000 (1/20) 36 - 149888/100| := by
  rw [FinancialEngine.payment_of_rate_ne_zero _ (by norm_num), lt_abs]
  left
  norm_num

/-- C1 (amended): for positive principal and rate and at least one period,
`payment` equals the annuity formula
`principal * rate / (1 - (1 + rate) ^ (-periods))`; the concrete scenarios
the formula actually yields are `payment 50000 0.05 36 ≈ 3021.72` and
`payment 300000 0.065 360 ≈ 19500.00` (absolute tolerance `0.01`). -/
theorem claim_C1_payment_formula :
    (∀ (P r : ℚ) (n : ℕ), 0 < P → 0 < r → 1 ≤ n →
      FinancialEngine.payment P r n = P * r / (1 - ((1 + r) ^ n)⁻¹)) ∧
    |FinancialEngine.payment 50000 (1/20) 36 - 302172/100| < 1/100 ∧
    |FinancialEngine.payment 300000 (13/200) 360 - 1950000/100| < 1/100 := by
  refine ⟨fun P r n hP hr hn =>
    FinancialEngine.payment_of_rate_ne_zero P (ne_of_gt hr) n, ?_, ?_⟩
  · rw [FinancialEngine.payment_of_rate_ne_zero _ (by norm_num), abs_sub_lt_iff]
    norm_num
  · rw [FinancialEngine.payment_of_rate_ne_zero _ (by norm_num), abs_sub_lt_iff]
    norm_num

/-- C1 witness: the annuity-formula identity instantiated at
`P = 1, r = 1, n = 1`. -/
theorem claim_C1_payment_formula_witness :
    FinancialEngine.payment 1 1 1 = 1 * 1 / (1 - ((1 + 1) ^ 1)⁻¹) :=
  claim_C1_payment_formula.1 1 1 1 (by norm_num) (by norm_num) (by norm_num)

/-- C2: `max_principal` inverts `payment`: for nonnegative principal and
rate and at least one period, recovering the principal from the payment
lands within `0.01` of the original principal (in fact exactly on it). -/
theorem claim_C2_roundtrip (P r : ℚ) (n : ℕ) (hP : 0 ≤ P) (hr : 0 ≤ r)
    (hn : 1 ≤ n) :
    |FinancialEngine.max_principal (FinancialEngine.payment P r n) r n - P|
      < 1/100 := by
  have hn' : (n : ℚ) ≠ 0 := Nat.cast_ne_zero.mpr (by omega)
  have heq : FinancialEngine.max_principal (FinancialEngine.payment P r n) r n
      = P := by
    rcases eq_or_lt_of_le hr with h0 | h0
    · rw [← h0]
      simp only [FinancialEngine.max_principal, FinancialEngine.payment,
        if_pos rfl]
      field_simp
    · have hrne : r ≠ 0 := ne_of_gt h0
      have hd : 1 - ((1 + r) ^ n)⁻¹ ≠ 0 :=
        ne_of_gt (FinancialEngine.annuity_denom_pos h0 hn)
      have hx1 : (1 + r) ^ n - 1 ≠ 0 := by
        have := FinancialEngine.one_lt_compound h0 hn
        intro hc
        linarith
      simp only [FinancialEngine.max_principal, FinancialEngine.payment,
        if_neg hrne]
      field_simp
  rw [heq, sub_self, abs_zero]
  norm_num

/-- C2 witness: the round-trip at `P = 50000, r = 0.05, n = 36`. -/
theorem claim_C2_roundtrip_witness :
    |FinancialEngine.max_principal
        (FinancialEngine.payment 50000 (1/20) 36) (1/20) 36 - 50000|
      < 1/100 :=
  claim_C2_roundtrip 50000 (1/20) 36 (by norm_num) (by norm_num) (by norm_num)

/-- C3: for every period of the term, the interest portion plus the
principal portion reproduces the level payment within `0.01` (in fact
exactly). -/
theorem claim_C3_decomposition (P r : ℚ) (k n : ℕ) (hP : 0 ≤ P)
    (hr : 0 ≤ r) (hk : 1 ≤ k) (hkn : k ≤ n) :
    |FinancialEngine.interest_payment P r k n
        + FinancialEngine.principal_payment P r k n
        - FinancialEngine.payment P r n| < 1/100 := by
  simp only [FinancialEngine.principal_payment]
  have h : FinancialEngine.interest_payment P r k n
      + (FinancialEngine.payment P r n
          - FinancialEngine.interest_payment P r k n)
      - FinancialEngine.payment P r n = 0 := by ring
  rw [h, abs_zero]
  norm_num

/-- C4: at rate `0`, `payment` is exactly `principal / periods`
(`payment 12000 0 12 = 1000` exactly), and every row of the zero-rate
amortization table carries that constant payment, zero interest, and a
principal portion equal to the payment. -/
theorem claim_C4_zero_rate :
    (∀ (P : ℚ) (n : ℕ), 1 ≤ n →
      FinancialEngine.payment P 0 n = P / n ∧
      ∀ row ∈ FinancialEngine.amortization_table P 0 n,
        row.payment = P / n ∧ row.interest = 0 ∧ row.principal = P / n) ∧
    FinancialEngine.payment 12000 0 12 = 1000 := by
  constructor
  · intro P n hn
    refine ⟨FinancialEngine.payment_of_rate_zero P n, ?_⟩
    intro row hrow
    simp only [FinancialEngine.amortization_table, List.mem_map,
      List.mem_range] at hrow
    obtain ⟨i, hi, rfl⟩ := hrow
    refine ⟨?_, ?_, ?_⟩
    · simp [FinancialEngine.amortRow, FinancialEngine.payment]
    · simp [FinancialEngine.amortRow, FinancialEngine.interest_payment]
    · simp [FinancialEngine.amortRow, FinancialEngine.principal_payment,
        FinancialEngine.interest_payment, FinancialEngine.payment]
  · rw [FinancialEngine.payment_of_rate_zero]
    norm_num

/-- C4 witness: the zero-rate branch at `P = 12000, n = 12`. -/
theorem claim_C4_zero_rate_witness :
    FinancialEngine.payment 12000 0 12 = 12000 / ((12 : ℕ) : ℚ) :=
  (claim_C4_zero_rate.1 12000 12 (by norm_num)).1

/-- C5: the amortization table has exactly `periods` rows, its principal
column sums back to the original principal within `0.01` (in fact exactly),
and the final row's balance is the exact value `0`. -/
theorem claim_C5_table (P r : ℚ) (n : ℕ) (hP : 0 ≤ P) (hr : 0 ≤ r)
    (hn : 1 ≤ n) :
    (FinancialEngine.amortization_table P r n).length = n ∧
    |((FinancialEngine.amortization_table P r n).map
        FinancialEngine.AmortizationRow.principal).sum - P| < 1/100 ∧
    ((FinancialEngine.amortization_table P r n).getLastD default).balance
      = 0 := by
  refine ⟨by simp [FinancialEngine.amortization_table], ?_, ?_⟩
  · have hmap : (FinancialEngine.amortization_table P r n).map
        FinancialEngine.AmortizationRow.principal
        = (List.range n).map fun i =>
            FinancialEngine.remaining_balance P r i n
              - FinancialEngine.remaining_balance P r (i + 1) n := by
      simp only [FinancialEngine.amortization_table, List.map_map]
      refine List.map_congr_left fun i _ => ?_
      simp only [Function.comp_apply, FinancialEngine.amortRow]
      exact FinancialEngine.principal_payment_eq_balance_sub P r i n
    rw [hmap, FinancialEngine.sum_map_range_sub,
      FinancialEngine.remaining_balance_zero,
      FinancialEngine.remaining_balance_final hr hn, sub_zero, sub_self,
      abs_zero]
    norm_num
  · obtain ⟨m, rfl⟩ : ∃ m, n = m + 1 := ⟨n - 1, by omega⟩
    have hsplit : FinancialEngine.amortization_table P r (m + 1)
        = ((List.range m).map fun i =>
            FinancialEngine.amortRow P r (i + 1) (m + 1))
          ++ [FinancialEngine.amortRow P r (m + 1) (m + 1)] := by
      simp [FinancialEngine.amortization_table, List.range_succ]
    rw [hsplit, List.getLastD_concat]
    simp [FinancialEngine.amortRow]

/-- C5 witness: the table invariants at `P = 50000, r = 0.05, n = 36`. -/
theorem claim_C5_table_witness :
    (FinancialEngine.amortization_table 50000 (1/20) 36).length = 36 ∧
    |((FinancialEngine.amortization_table 50000 (1/20) 36).map
        FinancialEngine.AmortizationRow.principal).sum - 50000| < 1/100 ∧
    ((FinancialEngine.amortization_table 50000 (1/20) 36).getLastD
        default).balance = 0 :=
  claim_C5_table 50000 (1/20) 36 (by norm_num) (by norm_num) (by norm_num)

/-- C6: the balance at period `0` is exactly the principal, and the balance
at the final period is within `0.01` of `0` (in fact exactly `0`). -/
theorem claim_C6_balance_boundaries (P r : ℚ) (n : ℕ) (hP : 0 ≤ P)
    (hr : 0 ≤ r) (hn : 1 ≤ n) :
    FinancialEngine.remaining_balance P r 0 n = P ∧
    |FinancialEngine.remaining_balance P r n n| < 1/100 := by
  refine ⟨FinancialEngine.remaining_balance_zero P r n, ?_⟩
  rw [FinancialEngine.remaining_balance_final hr hn, abs_zero]
  norm_num

/-- C6 witness: the boundary values at `P = 50000, r = 0.05, n = 36`. -/
theorem claim_C6_balance_boundaries_witness :
    FinancialEngine.remaining_balance 50000 (1/20) 0 36 = 50000 ∧
    |FinancialEngine.remaining_balance 50000 (1/20) 36 36| < 1/100 :=
  claim_C6_balance_boundaries 50000 (1/20) 36 (by norm_num) (by norm_num)
    (by norm_num)

/-- C7: for a positive rate and principal, the interest portion strictly
decreases and the principal portion strictly increases as the period index
grows through `1..periods`. -/
theorem claim_C7_monotonicity (P r : ℚ) (k l n : ℕ) (hP : 0 < P)
    (hr : 0 < r) (hk : 1 ≤ k) (hkl : k < l) (hln : l ≤ n) :
    FinancialEngine.interest_payment P r l n
        < FinancialEngine.interest_payment P r k n ∧
    FinancialEngine.principal_payment P r k n
        < FinancialEngine.principal_payment P r l n := by
  have hn : 1 ≤ n := by omega
  have hanti := FinancialEngine.remaining_balance_strictAnti
    (P := P) (r := r) (n := n) hP hr hn
  have hlt : FinancialEngine.remaining_balance P r (l - 1) n
      < FinancialEngine.remaining_balance P r (k - 1) n :=
    hanti (show k - 1 < l - 1 by omega)
  have hmul := mul_lt_mul_of_pos_right hlt hr
  constructor
  · simpa only [FinancialEngine.interest_payment] using hmul
  · simp only [FinancialEngine.principal_payment,
      FinancialEngine.interest_payment]
    linarith

/-- C7 witness: the monotone decomposition at
`P = 50000, r = 0.07, k = 1, l = 60, n = 60`. -/
theorem claim_C7_monotonicity_witness :
    FinancialEngine.interest_payment 50000 (7/100) 60 60
        < FinancialEngine.interest_payment 50000 (7/100) 1 60 ∧
    FinancialEngine.principal_payment 50000 (7/100) 1 60
        < FinancialEngine.principal_payment 50000 (7/100) 60 60 :=
  claim_C7_monotonicity 50000 (7/100) 1 60 60 (by norm_num) (by norm_num)
    (by norm_num) (by norm_num) (by norm_num)

/-- C8: the payment is strictly positive for every positive principal,
nonnegative rate and at least one period; over exact rationals the value is
always a finite number, so it is in particular finite and not NaN. -/
theorem claim_C8_payment_pos (P r : ℚ) (n : ℕ) (hP : 0 < P) (hr : 0 ≤ r)
    (hn : 1 ≤ n) : 0 < FinancialEngine.payment P r n :=
  FinancialEngine.payment_pos hP hr hn

/-- C8 witness: positivity at the tested extremes `(10000, 0.24, 12)` and
`(500000, 0.05, 480)`. -/
theorem claim_C8_payment_pos_witness :
    0 < FinancialEngine.payment 10000 (24/100) 12 ∧
    0 < FinancialEngine.payment 500000 (1/20) 480 :=
  ⟨claim_C8_payment_pos 10000 (24/100) 12 (by norm_num) (by norm_num)
      (by norm_num),
    claim_C8_payment_pos 500000 (1/20) 480 (by norm_num) (by norm_num)
      (by norm_num)⟩

/-- C3 witness: the decomposition at `P = 25000, r = 0.059, k = 1, n = 60`. -/
theorem claim_C3_decomposition_witness :
    |FinancialEngine.interest_payment 25000 (59/1000) 1 60
        + FinancialEngine.principal_payment 25000 (59/1000) 1 60
        - FinancialEngine.payment 25000 (59/1000) 60| < 1/100 :=
  claim_C3_decomposition 25000 (59/1000) 1 60 (by norm_num) (by norm_num)
    (by norm_num) (by norm_num)

/-- C9: every checked operation, on `periods ≤ 0`, negative rate, or
negative principal, fails immediately with `InvalidTerm`, `InvalidRate` or
`InvalidPrincipal` respectively, returning no partial result. -/
theorem claim_C9_input_validation (P r : ℚ) (k : ℕ) (n : ℤ) :
    (n ≤ 0 →
      FinancialEngine.payment_checked P r n = .error .InvalidTerm ∧
      FinancialEngine.max_principal_checked P r n = .error .InvalidTerm ∧
      FinancialEngine.interest_payment_checked P r k n
        = .error .InvalidTerm ∧
      FinancialEngine.principal_payment_checked P r k n
        = .error .InvalidTerm ∧
      FinancialEngine.remaining_balance_checked P r k n
        = .error .InvalidTerm ∧
      FinancialEngine.amortization_table_checked P r n
        = .error .InvalidTerm) ∧
    (0 < n → r < 0 →
      FinancialEngine.payment_checked P r n = .error .InvalidRate ∧
      FinancialEngine.max_principal_checked P r n = .error .InvalidRate ∧
      FinancialEngine.interest_payment_checked P r k n
        = .error .InvalidRate ∧
      FinancialEngine.principal_payment_checked P r k n
        = .error .InvalidRate ∧
      FinancialEngine.remaining_balance_checked P r k n
        = .error .InvalidRate ∧
      FinancialEngine.amortization_table_checked P r n
        = .error .InvalidRate) ∧
    (0 < n → 0 ≤ r → P < 0 →
      FinancialEngine.payment_checked P r n = .error .InvalidPrincipal ∧
      FinancialEngine.max_principal_checked P r n
        = .error .InvalidPrincipal ∧
      FinancialEngine.interest_payment_checked P r k n
        = .error .InvalidPrincipal ∧
      FinancialEngine.principal_payment_checked P r k n
        = .error .InvalidPrincipal ∧
      FinancialEngine.remaining_balance_checked P r k n
        = .error .InvalidPrincipal ∧
      FinancialEngine.amortization_table_checked P r n
        = .error .InvalidPrincipal) := by
  refine ⟨fun h => ?_, fun hn hr => ?_, fun hn hr hP => ?_⟩
  · have hv : FinancialEngine.validate P r n = .error .InvalidTerm := by
      simp [FinancialEngine.validate, h]
    simp [FinancialEngine.payment_checked,
      FinancialEngine.max_principal_checked,
      FinancialEngine.interest_payment_checked,
      FinancialEngine.principal_payment_checked,
      FinancialEngine.remaining_balance_checked,
      FinancialEngine.amortization_table_checked, hv, Except.map]
  · have hv : FinancialEngine.validate P r n = .error .InvalidRate := by
      simp [FinancialEngine.validate, not_le.mpr hn, hr]
    simp [FinancialEngine.payment_checked,
      FinancialEngine.max_principal_checked,
      FinancialEngine.interest_payment_checked,
      FinancialEngine.principal_payment_checked,
      FinancialEngine.remaining_balance_checked,
      FinancialEngine.amortization_table_checked, hv, Except.map]
  · have hv : FinancialEngine.validate P r n = .error .InvalidPrincipal := by
      simp [FinancialEngine.validate, not_le.mpr hn, not_lt.mpr hr, hP]
    simp [FinancialEngine.payment_checked,
      FinancialEngine.max_principal_checked,
      FinancialEngine.interest_payment_checked,
      FinancialEngine.principal_payment_checked,
      FinancialEngine.remaining_balance_checked,
      FinancialEngine.amortization_table_checked, hv, Except.map]

/-- C9 witness: the three error classes surfaced by `payment_checked` at
concrete invalid inputs. -/
theorem claim_C9_input_validation_witness :
    FinancialEngine.payment_checked 1 (1/20) (-3)
      = .error .InvalidTerm ∧
    FinancialEngine.payment_checked 1 (-1/20) 12
      = .error .InvalidRate ∧
    FinancialEngine.payment_checked (-1) (1/20) 12
      = .error .InvalidPrincipal :=
  ⟨((claim_C9_input_validation 1 (1/20) 1 (-3)).1 (by norm_num)).1,
    ((claim_C9_input_validation 1 (-1/20) 1 12).2.1 (by norm_num)
      (by norm_num)).1,
    ((claim_C9_input_validation (-1) (1/20) 1 12).2.2 (by norm_num)
      (by norm_num) (by norm_num)).1⟩

/-- C10: `get_environment` always answers one of `"kaggle"`, `"colab"`,
`"local"`, and whenever the Kaggle indicator is present the answer is
`"kaggle"`, regardless of the Colab indicators. -/
theorem claim_C10_get_environment (e : Utils.EnvState) :
    (Utils.get_environment e = "kaggle" ∨ Utils.get_environment e = "colab"
      ∨ Utils.get_environment e = "local") ∧
    (Utils.is_kaggle e = true → Utils.get_environment e = "kaggle") := by
  rcases e with ⟨k, g, m⟩
  cases k <;> cases g <;> cases m <;>
    simp [Utils.get_environment, Utils.is_kaggle, Utils.is_colab]

/-- C10 witness: with every indicator present, Kaggle wins. -/
theorem claim_C10_get_environment_witness :
    Utils.get_environment ⟨true, true, true⟩ = "kaggle" :=
  (claim_C10_get_environment ⟨true, true, true⟩).2 rfl
